import Mathlib

/-!
Shallow embedding of `daemon/container_windows.go` (Windows container
launch-spec assembly) and proofs about it.

The embedding mirrors the source function by function:
* `dispatchNetwork` is the `switch parts[0]` network-mode dispatch at the
  top of `populateCommand`;
* `walkLayers` is the `for i := img; i != nil && err == nil; i, err = GetParent(i)`
  layer walk, written with explicit fuel (the Go loop has no step bound, so a
  run that would loop forever is the fuel-indexed family returning `none` for
  every fuel); it also records the trace of storage-driver `Get`/`Put` calls;
* `populateCommand` composes dispatch, walk, metadata lookup and the final
  `c.command = &execdriver.Command{...}` store;
* `conditionalMountOnStart` / `conditionalUnmountOnCleanup` are the
  isolation-conditional mount lifecycle helpers.

External collaborators (image graph, storage driver, mount/unmount syscalls)
are parameters: pure functions standing for their observed behaviour, with Go
`(*T, error)` return pairs modelled as `Option T × Option String` where the
caller inspects both components, and `(T, error)` as `Except String T` where
the value is only used when the error is nil.
-/

namespace ContainerWindows

/-- Execution-driver interface descriptor (`execdriver.NetworkInterface`):
only the fields `populateCommand` sets are modelled. -/
structure NetworkInterface where
  macAddress : String
  bridge : String
  portBindings : List (String × String)
  deriving DecidableEq, Repr

/-- Execution-driver network descriptor (`execdriver.Network`); `interface`
is the nilable `Interface` pointer field. -/
structure Network where
  interface : Option NetworkInterface
  deriving DecidableEq, Repr

/-- Execution-driver resource structure (`execdriver.Resources`); only
`CPUShares` is populated on Windows. -/
structure Resources where
  cpuShares : Int
  deriving DecidableEq, Repr

/-- Execution-driver process structure (`execdriver.ProcessConfig`). -/
structure ProcessConfig where
  privileged : Bool
  entrypoint : String
  arguments : List String
  tty : Bool
  user : String
  consoleSize : Int × Int
  env : List String
  deriving DecidableEq, Repr

/-- Assembled launch specification (`execdriver.Command` plus its embedded
`CommonCommand`). -/
structure Command where
  id : String
  rootfs : String
  initPath : String
  workingDir : String
  network : Network
  mountLabel : String
  resources : Resources
  processConfig : ProcessConfig
  processLabel : String
  firstStart : Bool
  layerFolder : String
  layerPaths : List String
  hostname : String
  isolated : Bool
  deriving DecidableEq, Repr

/-- Isolation mode (`container.hostConfig.Isolation`), the two variants the
source distinguishes through `IsHyperV()`. -/
inductive IsolationMode where
  | processIsolated
  | hyperv
  deriving DecidableEq, Repr

/-- The `IsHyperV()` test on the isolation mode. -/
def IsolationMode.isHyperV : IsolationMode → Bool
  | .hyperv => true
  | .processIsolated => false

/-- Container configuration (`c.Config`), restricted to the fields
`populateCommand` reads. -/
structure Config where
  env : List String
  networkDisabled : Bool
  macAddress : String
  tty : Bool
  user : String
  workingDir : String
  hostname : String
  deriving DecidableEq, Repr

/-- Host configuration (`c.hostConfig`), restricted to the fields the source
reads. -/
structure HostConfig where
  networkMode : String
  cpuShares : Int
  portBindings : List (String × String)
  consoleSize : Int × Int
  privileged : Bool
  isolation : IsolationMode
  deriving DecidableEq, Repr

/-- A node of the image graph (`image.Image`): identifier and optional parent
identifier (absent at the root). -/
structure Image where
  id : String
  parent : Option String
  deriving DecidableEq, Repr

/-- The container (`daemon.Container`): the fields `populateCommand`,
`conditionalMountOnStart` and `conditionalUnmountOnCleanup` read, plus the
`command` field the success path of `populateCommand` stores into.
`rootfs`, `mountLabel` and `processLabel` stand for the `CommonContainer`
accessors `rootfsPath()`, `getMountLabel()`, `getProcessLabel()`, which are
pure reads of container state. -/
structure Container where
  id : String
  path : String
  args : List String
  imageID : String
  hasBeenStartedBefore : Bool
  rootfs : String
  mountLabel : String
  processLabel : String
  config : Config
  hostConfig : HostConfig
  command : Option Command
  deriving DecidableEq, Repr

/-- The error codes `populateCommand` can return (`derr.ErrorCode*.WithArgs`),
each carrying the arguments the source passes. -/
inductive DockerError where
  | invalidNetworkMode (mode : String)
  | getGraph (imageID : String) (err : String)
  | getLayer (driverName : String) (layerID : String) (err : String)
  | putLayer (driverName : String) (layerID : String) (err : String)
  | getLayerMetadata (err : String)
  deriving DecidableEq, Repr

/-- One storage-driver call observed during the layer walk: a `driver.Get`
(acquire) or `driver.Put` (release) on a layer id, with its success flag. -/
inductive DriverEvent where
  | get (id : String) (ok : Bool)
  | put (id : String) (ok : Bool)
  deriving DecidableEq, Repr

/-- The image graph collaborator (`c.daemon.graph`): `get` and `getParent`
return Go `(*image.Image, error)` pairs, modelled with both components
explicit because the loop condition inspects both. -/
structure Graph where
  get : String → Option Image × Option String
  getParent : Image → Option Image × Option String

/-- The storage-driver collaborator (`c.daemon.driver`). -/
structure Driver where
  name : String
  get : String → Except String String
  put : String → Option String
  getMetadata : String → Except String (List (String × String))

/-- The daemon state `populateCommand` reaches through `c.daemon`: image
graph, storage driver, and `configStore.Bridge.VirtualSwitchName`. -/
structure DaemonEnv where
  graph : Graph
  driver : Driver
  bridgeName : String

/-- Go `strings.SplitN(s, ":", 2)[0]`: the segment of `s` before the first
colon (all of `s` when there is none). -/
def takeUntilColon : List Char → List Char
  | [] => []
  | c :: cs => if c = ':' then [] else c :: takeUntilColon cs

/-- The network-mode string's segment before the first colon (`parts[0]` in
the source). -/
def networkModeHead (s : String) : String :=
  String.mk (takeUntilColon s.data)

/-- The `switch parts[0]` network dispatch of `populateCommand`: `none`
leaves the interface nil; `default` (or the empty string, kept for existing
containers) populates the interface unless networking is disabled; anything
else is the `ErrorCodeInvalidNetworkMode` error carrying the full
network-mode string. -/
def dispatchNetwork (cfg : Config) (hc : HostConfig) (bridge : String) :
    Except DockerError Network :=
  let mode := networkModeHead hc.networkMode
  if mode = "none" then
    Except.ok { interface := none }
  else if mode = "default" ∨ mode = "" then
    if cfg.networkDisabled then
      Except.ok { interface := none }
    else
      Except.ok { interface := some { macAddress := cfg.macAddress, bridge := bridge,
                                      portBindings := hc.portBindings } }
  else
    Except.error (DockerError.invalidNetworkMode hc.networkMode)

/-- Go map indexing `m["dir"]`: the value under key `dir`, or the zero value
(empty string) when the key is absent. -/
def lookupDir (m : List (String × String)) : String :=
  match m.find? (fun kv => kv.1 == "dir") with
  | some kv => kv.2
  | none => ""

/-- The layer walk of `populateCommand`:
`for i := img; i != nil && err == nil; i, err = graph.GetParent(i)`.
The state is the Go pair `(i, err)`; the loop body acquires the layer path
(`driver.Get`), appends it, and releases (`driver.Put`), returning the
corresponding error code when either call fails.  The walk exits normally —
with the accumulated paths and no error, faithfully to the source, which
never re-checks the loop's `err` — as soon as `i` is nil or `err` is non-nil.
`fuel` bounds the number of iterations; the first component is `none` when
the loop would still be running after `fuel` iterations.  The second
component is the trace of driver calls made. -/
def walkLayers (g : Graph) (drv : Driver) :
    Nat → Option Image × Option String → List String →
    Option (Except DockerError (List String)) × List DriverEvent
  | 0, (some _, none), _ => (none, [])
  | Nat.succ fuel, (some i, none), acc =>
    match drv.get i.id with
    | Except.error e =>
      (some (Except.error (DockerError.getLayer drv.name i.id e)),
       [DriverEvent.get i.id false])
    | Except.ok lp =>
      match drv.put i.id with
      | some e =>
        (some (Except.error (DockerError.putLayer drv.name i.id e)),
         [DriverEvent.get i.id true, DriverEvent.put i.id false])
      | none =>
        let r := walkLayers g drv fuel (g.getParent i) (acc ++ [lp])
        (r.1, DriverEvent.get i.id true :: DriverEvent.put i.id true :: r.2)
  | _, (none, _), acc => (some (Except.ok acc), [])
  | _, (some _, some _), acc => (some (Except.ok acc), [])

/-- The final `c.command = &execdriver.Command{...}` record of
`populateCommand`, given the already-computed network descriptor, layer
folder and layer paths. -/
def buildCommand (c : Container) (env : List String) (en : Network)
    (layerFolder : String) (layerPaths : List String) : Command :=
  { id := c.id
    rootfs := c.rootfs
    initPath := "/.dockerinit"
    workingDir := c.config.workingDir
    network := en
    mountLabel := c.mountLabel
    resources := { cpuShares := c.hostConfig.cpuShares }
    processConfig :=
      { privileged := c.hostConfig.privileged
        entrypoint := c.path
        arguments := c.args
        tty := c.config.tty
        user := c.config.user
        consoleSize := c.hostConfig.consoleSize
        env := env }
    processLabel := c.processLabel
    firstStart := !c.hasBeenStartedBefore
    layerFolder := layerFolder
    layerPaths := layerPaths
    hostname := c.config.hostname
    isolated := c.hostConfig.isolation.isHyperV }

/-- `populateCommand(c, env)`.  The result's first component is `none` when
the layer walk would not have finished within `fuel` iterations, and
otherwise `some (c', err)`: the container after the call (the source's only
write to `c` is the final `c.command` store on the success path) together
with the returned error, `none` on success.  The second component is the
trace of storage-driver layer calls. -/
def populateCommand (d : DaemonEnv) (c : Container) (env : List String) (fuel : Nat) :
    Option (Container × Option DockerError) × List DriverEvent :=
  match dispatchNetwork c.config c.hostConfig d.bridgeName with
  | Except.error e => (some (c, some e), [])
  | Except.ok en =>
    match d.graph.get c.imageID with
    | (_, some e) => (some (c, some (DockerError.getGraph c.imageID e)), [])
    | (img, none) =>
      let w := walkLayers d.graph d.driver fuel (img, none) []
      match w.1 with
      | none => (none, w.2)
      | some (Except.error e) => (some (c, some e), w.2)
      | some (Except.ok layerPaths) =>
        match d.driver.getMetadata c.id with
        | Except.error e => (some (c, some (DockerError.getLayerMetadata e)), w.2)
        | Except.ok m =>
          (some ({ c with command := some (buildCommand c env en (lookupDir m) layerPaths) },
                 none),
           w.2)

/-- `conditionalMountOnStart`: skips when Hyper-V isolated, otherwise calls
`container.Mount()` once, returning its error.  `mres` is the outcome the
mount syscall would have (`none` = success); the second component counts the
mount invocations actually made. -/
def conditionalMountOnStart (c : Container) (mres : Option String) :
    Option String × Nat :=
  if c.hostConfig.isolation.isHyperV then (none, 0)
  else
    match mres with
    | some e => (some e, 1)
    | none => (none, 1)

/-- What a run of `conditionalUnmountOnCleanup` did: how many times
`container.Unmount()` was invoked and which error messages were logged. The
Go function returns nothing, so every run yields such an outcome. -/
structure CleanupOutcome where
  unmountCalls : Nat
  logged : List String
  deriving DecidableEq, Repr

/-- `conditionalUnmountOnCleanup`: skips when Hyper-V isolated, otherwise
calls `container.Unmount()` once and, when it fails, logs
`"%v: Failed to umount filesystem: %v"` and still returns normally. -/
def conditionalUnmountOnCleanup (c : Container) (ures : Option String) :
    CleanupOutcome :=
  if c.hostConfig.isolation.isHyperV then { unmountCalls := 0, logged := [] }
  else
    match ures with
    | some e => { unmountCalls := 1, logged := [c.id ++ ": Failed to umount filesystem: " ++ e] }
    | none => { unmountCalls := 1, logged := [] }

/-- An event is an acquire of layer `id`: a successful `driver.Get id`. -/
def DriverEvent.isAcquireOf (id : String) : DriverEvent → Bool
  | .get i ok => i == id && ok
  | _ => false

/-- An event is a release of layer `id`: a `driver.Put id` call (successful
or not — the call was made). -/
def DriverEvent.isReleaseOf (id : String) : DriverEvent → Bool
  | .put i _ => i == id
  | _ => false

/-- Number of successful acquires of layer `id` in a trace. -/
def countAcquires (tr : List DriverEvent) (id : String) : Nat :=
  tr.countP (DriverEvent.isAcquireOf id)

/-- Number of releases of layer `id` in a trace. -/
def countReleases (tr : List DriverEvent) (id : String) : Nat :=
  tr.countP (DriverEvent.isReleaseOf id)

/-- `Except.isOk` specialised to the network dispatch result. -/
def exceptIsOk : Except DockerError Network → Bool
  | Except.ok _ => true
  | Except.error _ => false

/-- The walk state `st` reaches a parentless root through exactly the chain
`nodes` (leaf first): the pair is `(nil, nil)` for the empty chain, and for
`img :: rest` it is `(img, nil)` with `getParent img` continuing through
`rest`. -/
inductive ReachesRoot (g : Graph) : Option Image × Option String → List Image → Prop
  | nil : ReachesRoot g (none, none) []
  | cons (img : Image) (rest : List Image) :
      ReachesRoot g (g.getParent img) rest →
      ReachesRoot g (some img, none) (img :: rest)

/-- The walk state `st` runs through exactly the chain `nodes` (leaf first)
and then hits a `GetParent` error: the pair carries a non-nil error after the
last listed node. -/
inductive ReachesParentErr (g : Graph) : Option Image × Option String → List Image → Prop
  | base (i : Option Image) (e : String) : ReachesParentErr g (i, some e) []
  | cons (img : Image) (rest : List Image) :
      ReachesParentErr g (g.getParent img) rest →
      ReachesParentErr g (some img, none) (img :: rest)

/-- The walk from state `st` never finishes, whatever the iteration bound:
the fuel-indexed approximation of the unbounded Go loop returns no result at
every fuel. -/
def WalkDiverges (g : Graph) (drv : Driver) (st : Option Image × Option String) : Prop :=
  ∀ fuel : Nat, (walkLayers g drv fuel st []).1 = none

/-- A rooted chain never starts from a non-nil `GetParent` error. -/
theorem ReachesRoot.snd_eq_none {g : Graph} {i : Option Image} {e : Option String}
    {nodes : List Image} (h : ReachesRoot g (i, e) nodes) : e = none := by
  cases h <;> rfl

/-- Every trace the layer walk can produce — completed, aborted on a driver
error, or cut off at any fuel — has, for every layer id, as many `Put` calls
as successful `Get` calls. -/
theorem walk_trace_balanced (g : Graph) (drv : Driver) :
    ∀ (fuel : Nat) (st : Option Image × Option String) (acc : List String) (id : String),
      countReleases (walkLayers g drv fuel st acc).2 id
        = countAcquires (walkLayers g drv fuel st acc).2 id := by
  intro fuel
  induction fuel with
  | zero =>
    intro st acc id
    rcases st with ⟨i, e⟩
    rcases i with _ | i <;> rcases e with _ | e <;>
      simp [walkLayers, countReleases, countAcquires]
  | succ f ih =>
    intro st acc id
    rcases st with ⟨i, e⟩
    rcases i with _ | i
    · rcases e with _ | e <;> simp [walkLayers, countReleases, countAcquires]
    · rcases e with _ | e
      · rcases hg : drv.get i.id with e | lp
        · simp [walkLayers, hg, countReleases, countAcquires, List.countP_cons,
                DriverEvent.isReleaseOf, DriverEvent.isAcquireOf]
        · rcases hp : drv.put i.id with _ | e
          · have hrec := ih (g.getParent i) (acc ++ [lp]) id
            simp [walkLayers, hg, hp, countReleases, countAcquires,
                  List.countP_cons, DriverEvent.isReleaseOf, DriverEvent.isAcquireOf] at hrec ⊢
            omega
          · simp [walkLayers, hg, hp, countReleases, countAcquires, List.countP_cons,
                  DriverEvent.isReleaseOf, DriverEvent.isAcquireOf]
      · simp [walkLayers, countReleases, countAcquires]

/-- On a chain that reaches a parentless root, with the driver resolving and
releasing every chain node, the walk returns the accumulated list extended by
the chain's paths in chain (leaf-to-root) order. -/
theorem walk_ok_of_chain (g : Graph) (drv : Driver) (pathOf : String → String) :
    ∀ {st : Option Image × Option String} {nodes : List Image},
      ReachesRoot g st nodes →
      (∀ n ∈ nodes, drv.get n.id = Except.ok (pathOf n.id) ∧ drv.put n.id = none) →
      ∀ (fuel : Nat) (acc : List String), nodes.length ≤ fuel →
      (walkLayers g drv fuel st acc).1
        = some (Except.ok (acc ++ nodes.map (fun n => pathOf n.id))) := by
  intro st nodes h
  induction h with
  | nil =>
    intro _ fuel acc _
    cases fuel <;> simp [walkLayers]
  | cons img rest hrest ih =>
    intro hdrv fuel acc hf
    cases fuel with
    | zero => simp at hf
    | succ f =>
      obtain ⟨hget, hput⟩ := hdrv img (List.mem_cons_self img rest)
      have hf' : rest.length ≤ f := by simp at hf; omega
      have hrec := ih (fun n hn => hdrv n (List.mem_cons_of_mem img hn)) f
        (acc ++ [pathOf img.id]) hf'
      simp only [walkLayers, hget, hput]
      rw [hrec]
      simp

/-- On a chain that ends in a `GetParent` error, with the driver resolving
and releasing every chain node, the walk still returns `ok` with exactly the
chain's paths: the loop exits on the error and the error is never surfaced. -/
theorem walk_ok_of_parent_err (g : Graph) (drv : Driver) (pathOf : String → String) :
    ∀ {st : Option Image × Option String} {nodes : List Image},
      ReachesParentErr g st nodes →
      (∀ n ∈ nodes, drv.get n.id = Except.ok (pathOf n.id) ∧ drv.put n.id = none) →
      ∀ (fuel : Nat) (acc : List String), nodes.length ≤ fuel →
      (walkLayers g drv fuel st acc).1
        = some (Except.ok (acc ++ nodes.map (fun n => pathOf n.id))) := by
  intro st nodes h
  induction h with
  | base i e =>
    intro _ fuel acc _
    rcases i with _ | i <;> cases fuel <;> simp [walkLayers]
  | cons img rest hrest ih =>
    intro hdrv fuel acc hf
    cases fuel with
    | zero => simp at hf
    | succ f =>
      obtain ⟨hget, hput⟩ := hdrv img (List.mem_cons_self img rest)
      have hf' : rest.length ≤ f := by simp at hf; omega
      have hrec := ih (fun n hn => hdrv n (List.mem_cons_of_mem img hn)) f
        (acc ++ [pathOf img.id]) hf'
      simp only [walkLayers, hget, hput]
      rw [hrec]
      simp

/-- Whatever the storage driver does, the walk finishes within `fuel` steps
on a chain of at most `fuel` nodes that reaches a parentless root. -/
theorem walk_finite_chain_isSome (g : Graph) (drv : Driver) :
    ∀ {st : Option Image × Option String} {nodes : List Image},
      ReachesRoot g st nodes →
      ∀ (fuel : Nat) (acc : List String), nodes.length ≤ fuel →
      ((walkLayers g drv fuel st acc).1).isSome = true := by
  intro st nodes h
  induction h with
  | nil =>
    intro fuel acc _
    cases fuel <;> simp [walkLayers]
  | cons img rest hrest ih =>
    intro fuel acc hf
    cases fuel with
    | zero => simp at hf
    | succ f =>
      have hf' : rest.length ≤ f := by simp at hf; omega
      rcases hg : drv.get img.id with e | lp
      · simp [walkLayers, hg]
      · rcases hp : drv.put img.id with _ | e
        · simpa [walkLayers, hg, hp] using ih f (acc ++ [lp]) hf'
        · simp [walkLayers, hg, hp]

/-- From a node whose parent pointer resolves back to itself, and a driver
that keeps resolving it, the walk runs out of any fuel: the loop never
exits. -/
theorem walk_self_loop_none (g : Graph) (drv : Driver) (i : Image) (p : String)
    (hp : g.getParent i = (some i, none))
    (hget : drv.get i.id = Except.ok p) (hput : drv.put i.id = none) :
    ∀ (fuel : Nat) (acc : List String),
      (walkLayers g drv fuel (some i, none) acc).1 = none := by
  intro fuel
  induction fuel with
  | zero => intro acc; simp [walkLayers]
  | succ f ih =>
    intro acc
    simp only [walkLayers, hget, hput, hp]
    exact ih (acc ++ [p])

/-- The driver-call trace of a whole `populateCommand` run is balanced: for
every layer id, as many `Put` calls as successful `Get` calls. -/
theorem populate_trace_balanced (d : DaemonEnv) (c : Container) (env : List String)
    (fuel : Nat) (id : String) :
    countReleases (populateCommand d c env fuel).2 id
      = countAcquires (populateCommand d c env fuel).2 id := by
  rcases hd : dispatchNetwork c.config c.hostConfig d.bridgeName with e | en
  · simp [populateCommand, hd, countReleases, countAcquires]
  · rcases hg : d.graph.get c.imageID with ⟨img, err⟩
    rcases err with _ | e
    · rcases hr : (walkLayers d.graph d.driver fuel (img, none) []).1 with _ | r
      · simpa [populateCommand, hd, hg, hr] using
          walk_trace_balanced d.graph d.driver fuel (img, none) [] id
      · rcases r with e | lps
        · simpa [populateCommand, hd, hg, hr] using
            walk_trace_balanced d.graph d.driver fuel (img, none) [] id
        · rcases hm : d.driver.getMetadata c.id with e | m
          · simpa [populateCommand, hd, hg, hr, hm] using
              walk_trace_balanced d.graph d.driver fuel (img, none) [] id
          · simpa [populateCommand, hd, hg, hr, hm] using
              walk_trace_balanced d.graph d.driver fuel (img, none) [] id
    · simp [populateCommand, hd, hg, countReleases, countAcquires]

/-- The observable outcome of a `populateCommand` run: the stored command
(if any), the returned error, and the driver-call trace — the container's
input configuration fields are not part of the observation. -/
def observeRun (r : Option (Container × Option DockerError) × List DriverEvent) :
    Option (Option Command × Option DockerError) × List DriverEvent :=
  (r.1.map (fun p => (p.1.command, p.2)), r.2)

/-- `populateCommand` reads the network-mode string only through the network
dispatch: two runs whose containers differ only in that string, and whose
dispatches agree, have the same observable outcome. -/
theorem populate_mode_only_through_dispatch
    (d : DaemonEnv) (c : Container) (env : List String) (fuel : Nat) (nm1 nm2 : String)
    (hd : dispatchNetwork c.config { c.hostConfig with networkMode := nm1 } d.bridgeName
        = dispatchNetwork c.config { c.hostConfig with networkMode := nm2 } d.bridgeName) :
    observeRun (populateCommand d
        { c with hostConfig := { c.hostConfig with networkMode := nm1 } } env fuel)
      = observeRun (populateCommand d
        { c with hostConfig := { c.hostConfig with networkMode := nm2 } } env fuel) := by
  rcases hd2 : dispatchNetwork c.config { c.hostConfig with networkMode := nm2 } d.bridgeName
    with e | en
  · rw [hd2] at hd
    simp [populateCommand, hd, hd2, observeRun]
  · rw [hd2] at hd
    rcases hg : d.graph.get c.imageID with ⟨img, err⟩
    rcases err with _ | e
    · rcases hr : (walkLayers d.graph d.driver fuel (img, none) []).1 with _ | r
      · simp [populateCommand, hd, hd2, hg, hr, observeRun]
      · rcases r with e | lps
        · simp [populateCommand, hd, hd2, hg, hr, observeRun]
        · rcases hm : d.driver.getMetadata c.id with e | m
          · simp [populateCommand, hd, hd2, hg, hr, hm, observeRun]
          · simp [populateCommand, hd, hd2, hg, hr, hm, observeRun, buildCommand]
    · simp [populateCommand, hd, hd2, hg, observeRun]

/-! Concrete fixtures: a two-node image chain, a graph whose parent fetch
fails, a graph with a self-referential node, a well-behaved storage driver,
and a concrete container under each relevant configuration. -/

/-- Root image of the two-node chain. -/
def imgBase : Image := { id := "base", parent := none }

/-- Leaf image of the two-node chain. -/
def imgLeaf : Image := { id := "leaf", parent := some ("base") }

/-- Lookup of the two-node chain (plus an id resolving to the Go
`(nil, nil)` pair, for the no-layers case). -/
def chainGet : String → Option Image × Option String := fun id =>
  if id = "leaf" then (some imgLeaf, none)
  else if id = "base" then (some imgBase, none)
  else if id = "scratch" then (none, none)
  else (none, some ("no such image"))

/-- Two-node chain graph: `leaf → base → (root)`. -/
def chainGraph : Graph :=
  { get := chainGet
    getParent := fun i =>
      match i.parent with
      | none => (none, none)
      | some p => chainGet p }

/-- A storage driver that resolves every layer id to the path `p-` + id and
succeeds on every call. -/
def okDriver : Driver :=
  { name := "windowsfilter"
    get := fun id => Except.ok ("p-" ++ id)
    put := fun _ => none
    getMetadata := fun _ => Except.ok [("dir", "folder")] }

/-- The path function `okDriver` realises. -/
def pathW (id : String) : String := "p-" ++ id

/-- Daemon over the two-node chain graph. -/
def dW : DaemonEnv := { graph := chainGraph, driver := okDriver, bridgeName := "Virtual Switch" }

/-- Baseline container configuration: networking enabled. -/
def cfgW : Config :=
  { env := [], networkDisabled := false, macAddress := "00:16:3e:aa:bb:cc",
    tty := false, user := "", workingDir := "C:\\work", hostname := "win-ctr" }

/-- Baseline host configuration: mode `default`, process isolation. -/
def hcW : HostConfig :=
  { networkMode := "default", cpuShares := 2, portBindings := [],
    consoleSize := (0, 0), privileged := false, isolation := IsolationMode.processIsolated }

/-- Baseline container on the two-node chain. -/
def cW : Container :=
  { id := "cid", path := "cmd.exe", args := [], imageID := "leaf",
    hasBeenStartedBefore := false, rootfs := "C:\\rootfs", mountLabel := "",
    processLabel := "", config := cfgW, hostConfig := hcW, command := none }

/-- Baseline container with an unrecognized network mode. -/
def cBogus : Container := { cW with hostConfig := { hcW with networkMode := "bogus-mode" } }

/-- Baseline container under Hyper-V isolation. -/
def cHyper : Container := { cW with hostConfig := { hcW with isolation := IsolationMode.hyperv } }

/-- Baseline container whose image lookup yields the `(nil, nil)` pair:
no image layers at all. -/
def cScratch : Container := { cW with imageID := "scratch" }

/-- The interface descriptor `dispatchNetwork` produces for `cW` under
`dW`. -/
def enW : Network :=
  { interface := some { macAddress := "00:16:3e:aa:bb:cc", bridge := "Virtual Switch",
                        portBindings := [] } }

/-- The metadata mapping `okDriver` returns. -/
def mW : List (String × String) := [("dir", "folder")]

/-- Image whose parent fetch will fail: its parent id is unknown to its
graph. -/
def errImg : Image := { id := "solo", parent := some ("missing") }

/-- Lookup for the parent-fetch-failure graph. -/
def errGet : String → Option Image × Option String := fun id =>
  if id = "solo" then (some errImg, none) else (none, some ("corrupt index"))

/-- Graph on which `GetParent` fails right after the leaf. -/
def errGraph : Graph :=
  { get := errGet
    getParent := fun i =>
      match i.parent with
      | none => (none, none)
      | some p => errGet p }

/-- Daemon over the parent-fetch-failure graph. -/
def dErr : DaemonEnv := { graph := errGraph, driver := okDriver, bridgeName := "Virtual Switch" }

/-- Baseline container on the parent-fetch-failure graph. -/
def cErr : Container := { cW with imageID := "solo" }

/-- Self-referential corrupted node: its own parent. -/
def selfImage : Image := { id := "A", parent := some ("A") }

/-- Corrupted graph in which every lookup, including the parent fetch of
`selfImage`, yields `selfImage` again. -/
def selfGraph : Graph :=
  { get := fun _ => (some selfImage, none)
    getParent := fun _ => (some selfImage, none) }

/-- Networking-disabled configuration, for the `default`-vs-`none`
comparison. -/
def cfgDisabled : Config := { cfgW with networkDisabled := true }

/-- Host configuration with mode `none`. -/
def hcNoneMode : HostConfig := { hcW with networkMode := "none" }

/-- C1: for every image chain of depth N reachable from the container's leaf
image, a successful run of `populateCommand` stores a command whose layer
path list is exactly the chain's N paths in leaf-to-root order (the leaf's
path first), and a chain of depth 0 yields the empty list rather than an
error. -/
theorem populateCommand_layerPaths_leaf_to_root
    (d : DaemonEnv) (c : Container) (env : List String) (fuel : Nat)
    (nodes : List Image) (pathOf : String → String) (en : Network)
    (m : List (String × String))
    (hchain : ReachesRoot d.graph (d.graph.get c.imageID) nodes)
    (hdrv : ∀ n ∈ nodes, d.driver.get n.id = Except.ok (pathOf n.id) ∧ d.driver.put n.id = none)
    (hfuel : nodes.length ≤ fuel)
    (hen : dispatchNetwork c.config c.hostConfig d.bridgeName = Except.ok en)
    (hm : d.driver.getMetadata c.id = Except.ok m) :
    (populateCommand d c env fuel).1
      = some ({ c with command := some (buildCommand c env en (lookupDir m)
                  (nodes.map (fun n => pathOf n.id))) },
              none) := by
  rcases hg : d.graph.get c.imageID with ⟨img, err⟩
  rw [hg] at hchain
  have herr : err = none := hchain.snd_eq_none
  subst herr
  have hw := walk_ok_of_chain d.graph d.driver pathOf hchain hdrv fuel [] hfuel
  simp [populateCommand, hen, hg, hw, hm]

/-- Witness for C1: on the concrete two-node chain the stored layer paths
are the leaf's then the root's; on the no-layers container the list is empty
and the run still succeeds. -/
theorem populateCommand_layerPaths_leaf_to_root_witness :
    (populateCommand dW cW [] 2).1
      = some ({ cW with command := some (buildCommand cW [] enW (lookupDir mW)
                  (["p-leaf", "p-base"])) }, none)
    ∧ (populateCommand dW cScratch [] 2).1
      = some ({ cScratch with command := some (buildCommand cScratch [] enW (lookupDir mW)
                  ([])) }, none) := by
  constructor
  · exact populateCommand_layerPaths_leaf_to_root dW cW [] 2 [imgLeaf, imgBase] pathW enW mW
      (ReachesRoot.cons imgLeaf [imgBase] (ReachesRoot.cons imgBase [] ReachesRoot.nil))
      (by intro n hn; fin_cases hn <;> exact ⟨rfl, rfl⟩) (by decide) rfl rfl
  · exact populateCommand_layerPaths_leaf_to_root dW cScratch [] 2 [] pathW enW mW
      ReachesRoot.nil (by simp) (by decide) rfl rfl

/-- C2: every driver-call trace `populateCommand` can produce — the walk may
complete, abort mid-chain, or be cut off at any bound — has, for every layer
id, exactly as many releases (`driver.Put` calls) as successful acquires
(`driver.Get` calls). -/
theorem populateCommand_acquire_release_balanced
    (d : DaemonEnv) (c : Container) (env : List String) (fuel : Nat) (id : String) :
    countReleases (populateCommand d c env fuel).2 id
      = countAcquires (populateCommand d c env fuel).2 id :=
  populate_trace_balanced d c env fuel id

/-- C10: when `GetParent` fails after at least one layer has been resolved,
the walk exits silently — the fetch error is never surfaced — and
`populateCommand` succeeds with the truncated layer path list of the layers
resolved so far. -/
theorem populateCommand_parent_error_swallowed
    (d : DaemonEnv) (c : Container) (env : List String) (fuel : Nat)
    (nodes : List Image) (pathOf : String → String) (en : Network)
    (m : List (String × String))
    (hchain : ReachesParentErr d.graph (d.graph.get c.imageID) nodes)
    (hne : nodes ≠ [])
    (hdrv : ∀ n ∈ nodes, d.driver.get n.id = Except.ok (pathOf n.id) ∧ d.driver.put n.id = none)
    (hfuel : nodes.length ≤ fuel)
    (hen : dispatchNetwork c.config c.hostConfig d.bridgeName = Except.ok en)
    (hm : d.driver.getMetadata c.id = Except.ok m) :
    (populateCommand d c env fuel).1
      = some ({ c with command := some (buildCommand c env en (lookupDir m)
                  (nodes.map (fun n => pathOf n.id))) },
              none) := by
  rcases hg : d.graph.get c.imageID with ⟨img, err⟩
  rw [hg] at hchain
  have herr : err = none := by
    cases hchain with
    | base i e => exact absurd rfl hne
    | cons img rest h => rfl
  subst herr
  have hw := walk_ok_of_parent_err d.graph d.driver pathOf hchain hdrv fuel [] hfuel
  simp [populateCommand, hen, hg, hw, hm]

/-- Witness for C10: on the graph whose parent fetch fails right after the
leaf, assembly succeeds with only the leaf's path. -/
theorem populateCommand_parent_error_swallowed_witness :
    (populateCommand dErr cErr [] 1).1
      = some ({ cErr with command := some (buildCommand cErr [] enW (lookupDir mW)
                  (["p-solo"])) }, none) := by
  exact populateCommand_parent_error_swallowed dErr cErr [] 1 [errImg] pathW enW mW
    (ReachesParentErr.cons errImg [] (ReachesParentErr.base none ("corrupt index")))
    (by simp) (by intro n hn; fin_cases hn; exact ⟨rfl, rfl⟩) (by decide) rfl rfl

/-- C3: a network-mode string whose segment before the first colon is not
`none`, `default`, or empty makes `populateCommand` fail with the
`InvalidNetworkMode` error carrying the offending network-mode string (and
no driver calls are made), and this is the network dispatcher's only error
condition: recognized heads never produce a dispatch error. -/
theorem populateCommand_invalid_network_mode
    (d : DaemonEnv) (c : Container) (env : List String) (fuel : Nat)
    (cfg : Config) (hc : HostConfig) (b : String) :
    (networkModeHead c.hostConfig.networkMode ≠ "none" →
     networkModeHead c.hostConfig.networkMode ≠ "default" →
     networkModeHead c.hostConfig.networkMode ≠ "" →
     populateCommand d c env fuel
       = (some (c, some (DockerError.invalidNetworkMode c.hostConfig.networkMode)), []))
    ∧ ((networkModeHead hc.networkMode = "none" ∨ networkModeHead hc.networkMode = "default"
          ∨ networkModeHead hc.networkMode = "") →
       exceptIsOk (dispatchNetwork cfg hc b) = true) := by
  constructor
  · intro h1 h2 h3
    have hd : dispatchNetwork c.config c.hostConfig d.bridgeName
        = Except.error (DockerError.invalidNetworkMode c.hostConfig.networkMode) := by
      simp [dispatchNetwork, h1, h2, h3]
    simp [populateCommand, hd]
  · rintro (h | h | h) <;> cases hcd : cfg.networkDisabled <;>
      simp [dispatchNetwork, h, hcd, exceptIsOk]

/-- Witness for C3: mode `bogus-mode` fails with `InvalidNetworkMode` naming
`bogus-mode`, while the recognized mode `default` dispatches without
error. -/
theorem populateCommand_invalid_network_mode_witness :
    populateCommand dW cBogus [] 1
      = (some (cBogus, some (DockerError.invalidNetworkMode ("bogus-mode"))), [])
    ∧ exceptIsOk (dispatchNetwork cfgW hcW ("vs")) = true :=
  ⟨(populateCommand_invalid_network_mode dW cBogus [] 1 cfgW hcW ("vs")).1
      (by decide) (by decide) (by decide),
   (populateCommand_invalid_network_mode dW cBogus [] 1 cfgW hcW ("vs")).2
      (Or.inr (Or.inl (by decide)))⟩

/-- Counterexample for C4: the claim's "distinct from the descriptor
produced for mode `none`" fails — at a concrete networking-disabled
configuration, mode `default` and mode `none` dispatch to the very same
nil-interface descriptor. -/
theorem dispatchNetwork_default_disabled_equals_none :
    dispatchNetwork cfgDisabled hcW ("Virtual Switch")
      = dispatchNetwork cfgDisabled hcNoneMode ("Virtual Switch")
    ∧ dispatchNetwork cfgDisabled hcW ("Virtual Switch")
      = Except.ok { interface := none } :=
  ⟨rfl, rfl⟩

/-- C4 (amended): for network mode `default` (or empty string) with the
network-disabled flag set, the dispatch succeeds with a nil-interface
descriptor — equal to (not distinct from) the descriptor produced for mode
`none`; with networking enabled, `default` produces an interface descriptor
carrying the configured MAC address, bridge name, and port-binding table. -/
theorem dispatchNetwork_default_modes
    (cfg : Config) (hc : HostConfig) (b : String)
    (hmode : networkModeHead hc.networkMode = "default" ∨ networkModeHead hc.networkMode = "") :
    (cfg.networkDisabled = true →
      dispatchNetwork cfg hc b = Except.ok { interface := none }
        ∧ dispatchNetwork cfg { hc with networkMode := "none" } b
            = Except.ok { interface := none })
    ∧ (cfg.networkDisabled = false →
      dispatchNetwork cfg hc b
        = Except.ok { interface := some { macAddress := cfg.macAddress, bridge := b,
                                          portBindings := hc.portBindings } }) := by
  constructor <;> intro hd
  · refine ⟨?_, rfl⟩
    rcases hmode with h | h <;> simp [dispatchNetwork, h, hd]
  · rcases hmode with h | h <;> simp [dispatchNetwork, h, hd]

/-- Witness for the amended C4 at concrete configurations: disabled
networking under `default` and under `none`, and enabled networking under
`default`. -/
theorem dispatchNetwork_default_modes_witness :
    (dispatchNetwork cfgDisabled hcW ("vs") = Except.ok { interface := none }
      ∧ dispatchNetwork cfgDisabled { hcW with networkMode := "none" } ("vs")
          = Except.ok { interface := none })
    ∧ dispatchNetwork cfgW hcW ("vs")
        = Except.ok { interface := some { macAddress := ("00:16:3e:aa:bb:cc"),
                                          bridge := ("vs"), portBindings := [] } } :=
  ⟨(dispatchNetwork_default_modes cfgDisabled hcW ("vs") (Or.inl rfl)).1 rfl,
   (dispatchNetwork_default_modes cfgW hcW ("vs") (Or.inl rfl)).2 rfl⟩

/-- C5: under process isolation, start-preparation invokes mount exactly
once and cleanup invokes unmount exactly once; under Hyper-V isolation,
neither is invoked. -/
theorem conditional_mount_unmount_exactly_once
    (c : Container) (mres ures : Option String) :
    (c.hostConfig.isolation = IsolationMode.processIsolated →
      (conditionalMountOnStart c mres).2 = 1
        ∧ (conditionalUnmountOnCleanup c ures).unmountCalls = 1)
    ∧ (c.hostConfig.isolation = IsolationMode.hyperv →
      (conditionalMountOnStart c mres).2 = 0
        ∧ (conditionalUnmountOnCleanup c ures).unmountCalls = 0) := by
  constructor <;> intro hiso <;> cases mres <;> cases ures <;>
    simp [conditionalMountOnStart, conditionalUnmountOnCleanup, hiso, IsolationMode.isHyperV]

/-- Witness for C5 at the concrete process-isolated and Hyper-V
containers. -/
theorem conditional_mount_unmount_exactly_once_witness :
    ((conditionalMountOnStart cW (some ("mount boom"))).2 = 1
      ∧ (conditionalUnmountOnCleanup cW none).unmountCalls = 1)
    ∧ ((conditionalMountOnStart cHyper (some ("mount boom"))).2 = 0
      ∧ (conditionalUnmountOnCleanup cHyper none).unmountCalls = 0) :=
  ⟨(conditional_mount_unmount_exactly_once cW (some ("mount boom")) none).1 rfl,
   (conditional_mount_unmount_exactly_once cHyper (some ("mount boom")) none).2 rfl⟩

/-- C6: mount failure during start-preparation is fatal — the mount error is
returned to the caller — whereas unmount failure during cleanup is
non-fatal: the (void) cleanup still completes, recording one unmount attempt
and the logged error message. -/
theorem mount_failure_fatal_unmount_failure_nonfatal
    (c : Container) (e u : String)
    (hiso : c.hostConfig.isolation = IsolationMode.processIsolated) :
    (conditionalMountOnStart c (some e)).1 = some e
    ∧ conditionalUnmountOnCleanup c (some u)
        = { unmountCalls := 1,
            logged := [c.id ++ ": Failed to umount filesystem: " ++ u] } := by
  simp [conditionalMountOnStart, conditionalUnmountOnCleanup, hiso, IsolationMode.isHyperV]

/-- Witness for C6 at the concrete process-isolated container with failing
mount and failing unmount. -/
theorem mount_failure_fatal_unmount_failure_nonfatal_witness :
    (conditionalMountOnStart cW (some ("mount failed"))).1 = some ("mount failed")
    ∧ conditionalUnmountOnCleanup cW (some ("unmount failed"))
        = { unmountCalls := 1,
            logged := [("cid: Failed to umount filesystem: unmount failed")] } :=
  mount_failure_fatal_unmount_failure_nonfatal cW ("mount failed") ("unmount failed") rfl

/-- C7: when `populateCommand` returns an error, no partial launch spec is
produced — the container, in particular its `command` field, is exactly the
input container — and the driver side effects are balanced acquire/release
pairs. -/
theorem populateCommand_error_leaves_container_unchanged
    (d : DaemonEnv) (c : Container) (env : List String) (fuel : Nat)
    (c2 : Container) (e : DockerError) (id : String)
    (h : (populateCommand d c env fuel).1 = some (c2, some e)) :
    c2 = c ∧ countReleases (populateCommand d c env fuel).2 id
      = countAcquires (populateCommand d c env fuel).2 id := by
  refine ⟨?_, populate_trace_balanced d c env fuel id⟩
  rcases hd : dispatchNetwork c.config c.hostConfig d.bridgeName with e0 | en
  · simp [populateCommand, hd] at h
    exact h.1.symm
  · rcases hg : d.graph.get c.imageID with ⟨img, err⟩
    rcases err with _ | e0
    · rcases hr : (walkLayers d.graph d.driver fuel (img, none) []).1 with _ | r
      · simp [populateCommand, hd, hg, hr] at h
      · rcases r with e0 | lps
        · simp [populateCommand, hd, hg, hr] at h
          exact h.1.symm
        · rcases hm : d.driver.getMetadata c.id with e0 | m
          · simp [populateCommand, hd, hg, hr, hm] at h
            exact h.1.symm
          · simp [populateCommand, hd, hg, hr, hm] at h
    · simp [populateCommand, hd, hg] at h
      exact h.1.symm

/-- Witness for C7: the unrecognized-mode failure leaves the concrete
container untouched, with a balanced (here empty) trace. -/
theorem populateCommand_error_leaves_container_unchanged_witness :
    cBogus = cBogus
    ∧ countReleases (populateCommand dW cBogus [] 1).2 ("leaf")
        = countAcquires (populateCommand dW cBogus [] 1).2 ("leaf") :=
  populateCommand_error_leaves_container_unchanged dW cBogus [] 1 cBogus
    (DockerError.invalidNetworkMode ("bogus-mode")) ("leaf") rfl

/-- C8: with all other inputs held equal, running `populateCommand` with an
empty network-mode string produces exactly the same observable result —
stored command, returned error, driver trace — as running it with
`default`. -/
theorem populateCommand_empty_mode_eq_default
    (d : DaemonEnv) (c : Container) (env : List String) (fuel : Nat) :
    observeRun (populateCommand d
        { c with hostConfig := { c.hostConfig with networkMode := "" } } env fuel)
      = observeRun (populateCommand d
        { c with hostConfig := { c.hostConfig with networkMode := "default" } } env fuel) :=
  populate_mode_only_through_dispatch d c env fuel ("") ("default") rfl

/-- Counterexample for C9: the walk does not guard against self-referential
corruption — on the concrete graph whose node is its own parent, the walk
never terminates (its fuel-indexed approximation returns no result at every
bound). -/
theorem walk_self_parent_never_terminates :
    WalkDiverges selfGraph okDriver (selfGraph.get ("A")) := by
  intro fuel
  exact walk_self_loop_none selfGraph okDriver selfImage ("p-" ++ selfImage.id)
    rfl rfl rfl fuel []

/-- C9 (amended): the layer walk terminates on every image graph in which
the chain from the starting state reaches a parentless root in finitely many
steps, whatever the storage driver does; the code contains no guard against
self-referential corruption, and on a graph with a node whose parent is
itself the walk does not terminate. -/
theorem walkLayers_terminates_on_rooted_chain
    (g : Graph) (drv : Driver) (st : Option Image × Option String)
    (nodes : List Image) (fuel : Nat) (acc : List String)
    (hchain : ReachesRoot g st nodes) (hfuel : nodes.length ≤ fuel) :
    ((walkLayers g drv fuel st acc).1).isSome = true :=
  walk_finite_chain_isSome g drv hchain fuel acc hfuel

/-- Witness for the amended C9 on the concrete two-node chain. -/
theorem walkLayers_terminates_on_rooted_chain_witness :
    ((walkLayers chainGraph okDriver 2 (chainGraph.get ("leaf")) []).1).isSome = true :=
  walkLayers_terminates_on_rooted_chain chainGraph okDriver (chainGraph.get ("leaf"))
    [imgLeaf, imgBase] 2 []
    (ReachesRoot.cons imgLeaf [imgBase] (ReachesRoot.cons imgBase [] ReachesRoot.nil))
    (by decide)

end ContainerWindows
